import Mathlib

/-!
Verification of the platformer engine core (`src/lib.rs`, `src/map.rs`,
`src/tiled.rs`, `src/main.rs`) against its natural-language specification.

Modelling conventions (shallow embedding of the Rust source):

* `i64`/`i32` values (positions, camera coordinates, `Rect.x/y`) are `Int`;
  `u32`/`u8` values (widths, heights, counters, tile ids) are `Nat`.  All
  arithmetic appearing in the verified claims stays many orders of magnitude
  below the 2^31 / 2^63 wrap boundaries, so two's-complement wrapping is never
  exercised and the `Int`/`Nat` semantics coincide with the machine semantics.
* `f64` velocity/acceleration components are `Rat` with the exact decimal
  values of the source literals (0.2, 0.7, 2.0, 0.80, 0.1, 9.8).  The f64
  literals are dyadic rationals within 2^-50 of these values, and every
  comparison performed by the claims is at distance far greater than the
  accumulated rounding error from the branch boundary, so no branch outcome
  differs between `Rat` and `f64`.
* Rust panics that the source can actually reach (division/modulus by zero in
  the animation advance, `Option::unwrap` on the active map, out-of-bounds
  slice indexing in map construction) are modelled by returning `none`.
* Opaque SDL handles (`Texture`, `Renderer`) carry no data relevant to any
  claim; structures keep every other field of their Rust counterparts.
-/

/-- `Point` from src/lib.rs: x, y position components (`i64`). -/
structure Pt where
  x : Int
  y : Int
deriving DecidableEq, Repr

/-- `sdl2::rect::Rect`: `i32` origin and `u32` extent. -/
structure Rect where
  x : Int
  y : Int
  w : Nat
  h : Nat
deriving DecidableEq, Repr

/-- `Velocity` from src/lib.rs (`f64` components, modelled as `Rat`). -/
structure Velocity where
  x : Rat
  y : Rat
deriving DecidableEq, Repr

/-- `Acceleration` from src/lib.rs (`f64` components, modelled as `Rat`). -/
structure Acceleration where
  x : Rat
  y : Rat
deriving DecidableEq, Repr

/-- `Direction` from src/lib.rs. -/
inductive Direction where
  | Up
  | DoubleUp
  | Down
  | Left
  | StillLeft
  | Right
  | StillRight
  | Landed
deriving DecidableEq, Repr, Fintype

/-- `map::Tileset` from src/map.rs.  The `texture` handle is opaque and
dropped; its queried dimensions are kept as in the source. -/
structure Tileset where
  firstgid : Nat
  texture_width : Nat
  texture_height : Nat
  tile_width : Nat
  tile_height : Nat
  tile_count : Nat
  margin : Nat
  spacing : Nat
deriving DecidableEq, Repr

/-- `Tileset::side_len`: `(self.tile_count as f64).sqrt() as u32`.
For `tile_count < 2^32` the conversion to `f64` is exact and the correctly
rounded `f64` square root of a non-square integer differs from the nearest
integer by at least about `2^-17`, far more than one ulp, so truncating it
yields exactly the integer square root `Nat.sqrt`. -/
def Tileset.side_len (ts : Tileset) : Nat :=
  Nat.sqrt ts.tile_count

/-- `Tileset::row_for_id`: `id / self.side_len()` (u32 division). -/
def Tileset.row_for_id (ts : Tileset) (id : Nat) : Nat :=
  id / ts.side_len

/-- `Tileset::col_for_id`: `id % self.side_len()` (u32 remainder). -/
def Tileset.col_for_id (ts : Tileset) (id : Nat) : Nat :=
  id % ts.side_len

/-- `Tileset::tile_for_id` from src/map.rs lines 51-64. -/
def Tileset.tile_for_id (ts : Tileset) (id : Nat) : Option Rect :=
  if id = 0 then
    none
  else
    let i := id - 1
    let x := ts.margin + ts.col_for_id i * (ts.tile_width + ts.spacing)
    let y := ts.margin + ts.row_for_id i * (ts.tile_height + ts.spacing)
    some ⟨(x : Int), (y : Int), ts.tile_width, ts.tile_height⟩

/-- `map::Tile`: shared texture handle (opaque, dropped) plus clip rect. -/
structure Tile where
  clip_rect : Option Rect
deriving DecidableEq, Repr

/-- `map::Map` from src/map.rs. -/
structure GameMap where
  width : Nat
  height : Nat
  tile_width : Nat
  tile_height : Nat
  tiles : List (List Tile)
deriving DecidableEq, Repr

/-- `Map::pixel_width`: `self.width * self.tile_width`. -/
def GameMap.pixel_width (m : GameMap) : Nat :=
  m.width * m.tile_width

/-- `Map::pixel_height`: `self.height * self.tile_height`. -/
def GameMap.pixel_height (m : GameMap) : Nat :=
  m.height * m.tile_height

/-- `Map::insert_data_using_tilset` from src/map.rs lines 118-129: for each
cell `(i, j)` it pushes `Tile::new(texture, ts.tile_for_id(data[i*width+j]))`.
The index is `i * width + j` — consecutive bytes of the inflated stream, with
no stride.  `data[..]` panics when out of bounds, modelled by `none`. -/
def GameMap.insert_data_using_tilset (m : GameMap) (data : List Nat) (ts : Tileset) :
    Option GameMap :=
  match (List.range m.height).mapM (fun i =>
      (List.range m.width).mapM (fun j =>
        (data.get? (i * m.width + j)).map (fun b => Tile.mk (ts.tile_for_id b)))) with
  | some rows => some { m with tiles := m.tiles ++ rows }
  | none => none

/-- `tiled::DataError` from src/tiled.rs (error payloads dropped). -/
inductive DataError where
  | NoDataError
  | NoLayerError
  | Base64Error
  | IoError
deriving DecidableEq, Repr

/-- `tiled::Layer`.  The source stores `data` as the raw base64 text; base64
decoding (`rustc_serialize`) and zlib inflation (`flate2`) are external
library code, so `data` here holds the byte stream those decoders produce.
`Map::data`'s own logic — layer lookup, the missing-data errors, and passing
the full inflated byte stream through unchanged — is translated below. -/
structure TiledLayer where
  data : Option (List Nat)
  width : Nat
  height : Nat
deriving DecidableEq, Repr

/-- `tiled::Map` (the `tilesets` descriptor list is not consumed by any
claimed operation and is dropped). -/
structure TiledMap where
  layers : List TiledLayer
  width : Nat
  height : Nat
  tilewidth : Nat
  tileheight : Nat
deriving DecidableEq, Repr

/-- `tiled::Map::data` from src/tiled.rs lines 98-109: fetch the layer,
fail with `NoLayerError`/`NoDataError` when absent, otherwise return the
base64-decoded, zlib-inflated byte stream in full (no stride, no grouping). -/
def TiledMap.data (m : TiledMap) (layer : Nat) : Except DataError (List Nat) :=
  match m.layers.get? layer with
  | some l =>
      match l.data with
      | some d => Except.ok d
      | none => Except.error DataError.NoDataError
  | none => Except.error DataError.NoLayerError

/-- `Entity` from src/lib.rs (the shared `sprite_map` texture handle is
opaque and dropped). -/
structure Entity where
  pos : Pt
  collision_rect : Rect
  draw_rect : Option Rect
deriving DecidableEq, Repr

/-- `Animation` from src/lib.rs.  `sc` is the sprite (frame) cursor, `ac`
the animation (tick) cursor; both are `u8` in the source, modelled as `Nat`
(all claimed runs keep them below the cycle length, far from 255).  The
per-direction `HashMap`s are total functions from `Direction`. -/
structure Animation where
  sc : Nat
  dir_to_anim_len : Direction → Nat
  ac : Nat
  dir_to_frames : Direction → Nat
  dir_to_offset : Direction → Pt
  dir_to_pos : Direction → Nat
  reverse : Bool
deriving DecidableEq

/-- `Animation::new`: cursors start at `sc = 1`, `ac = 0`. -/
def Animation.new (dtal dtf : Direction → Nat) (dto : Direction → Pt)
    (dtp : Direction → Nat) (reverse : Bool) : Animation :=
  { sc := 1
    dir_to_anim_len := dtal
    ac := 0
    dir_to_frames := dtf
    dir_to_offset := dto
    dir_to_pos := dtp
    reverse := reverse }

/-- `MoveableEntity` from src/lib.rs. -/
structure MoveableEntity where
  en : Entity
  dir : Direction
  l_dir : Direction
  v : Velocity
  a : Acceleration
  anim : Option Animation
deriving DecidableEq

/-- `MoveableEntity::reset_anim`: set `sc = 1`, `ac = 0` when an animation
is present. -/
def MoveableEntity.reset_anim (me : MoveableEntity) : MoveableEntity :=
  match me.anim with
  | some anim => { me with anim := some { anim with sc := 1, ac := 0 } }
  | none => me

/-- `MoveableEntity::change_dir` from src/lib.rs lines 240-255. -/
def MoveableEntity.change_dir (me : MoveableEntity) (d : Direction) : MoveableEntity :=
  if d = Direction.Landed then
    { me with dir := me.l_dir, l_dir := d }
  else if me.dir = Direction.Up ∨ me.dir = Direction.DoubleUp then
    me
  else
    let me := { me with l_dir := me.dir, dir := d }
    if d = Direction.StillLeft ∨ d = Direction.StillRight then
      me.reset_anim
    else
      me

/-- `MoveableEntity::keep_on_screen` from src/lib.rs lines 216-231.  The x
axis clamps the collision rect (offset `collision_rect.x` included); the y
axis clamps `pos.y` itself, without the `collision_rect.y` offset. -/
def MoveableEntity.keep_on_screen (me : MoveableEntity) (w h : Nat) : MoveableEntity :=
  let me :=
    if me.en.collision_rect.x + me.en.pos.x < 0 then
      { me with en := { me.en with pos := { me.en.pos with x := -me.en.collision_rect.x } } }
    else if me.en.collision_rect.x + me.en.pos.x + (me.en.collision_rect.w : Int) > (w : Int) then
      { me with en := { me.en with pos :=
          { me.en.pos with x := (w : Int) - ((me.en.collision_rect.w : Int) + me.en.collision_rect.x) } } }
    else
      me
  if me.en.pos.y < 0 then
    { me with en := { me.en with pos := { me.en.pos with y := 0 } } }
  else if me.en.pos.y + (me.en.collision_rect.h : Int) > (h : Int) then
    let me := { me with en := { me.en with pos :=
        { me.en.pos with y := (h : Int) - (me.en.collision_rect.h : Int) } } }
    match me.dir with
    | Direction.Up | Direction.DoubleUp => me.change_dir Direction.Landed
    | _ => me
  else
    me

/-- First block of `MoveableEntity::update` (src/lib.rs lines 616-622): a
stationary horizontal velocity turns `Right`/`Left` into the still facing. -/
def MoveableEntity.stillStep (me : MoveableEntity) : MoveableEntity :=
  if me.v.x = 0 then
    match me.dir with
    | Direction.Right => me.change_dir Direction.StillRight
    | Direction.Left => me.change_dir Direction.StillLeft
    | _ => me
  else
    me

/-- Animation-advance block of `MoveableEntity::update` (src/lib.rs lines
624-643).  `anim_len / frame_count` panics when `frame_count = 0` and
`ac % change_every` panics when `change_every = 0`; both panics are
modelled by `none`. -/
def MoveableEntity.animAdvance (me : MoveableEntity) : Option MoveableEntity :=
  if me.en.draw_rect = none then
    some me
  else
    match me.anim with
    | none => some me
    | some anim =>
        let anim_len := anim.dir_to_anim_len me.dir
        let frame_count := anim.dir_to_frames me.dir
        if frame_count = 0 then
          none
        else
          let change_every := anim_len / frame_count
          if change_every = 0 then
            none
          else
            let sc' :=
              if anim.ac % change_every = 0 then
                if anim.sc + 1 > frame_count - 1 then 0 else anim.sc + 1
              else
                anim.sc
            let ac' := if anim.ac + 1 > anim_len then 1 else anim.ac + 1
            some { me with anim := some { anim with sc := sc', ac := ac' } }

/-- `MoveableEntity::update` (src/lib.rs lines 614-645): the still-facing
fixup followed by the animation advance. -/
def MoveableEntity.update (me : MoveableEntity) : Option MoveableEntity :=
  me.stillStep.animAdvance

/-- `Player` from src/lib.rs. -/
structure Player where
  me : MoveableEntity
deriving DecidableEq

/-- Truncation of a rational toward zero, the semantics of Rust's
`f64 as i64` cast for in-range values. -/
def truncQ (q : Rat) : Int :=
  Int.sign q.num * (q.num.natAbs / q.den : Nat)

/-- The x-velocity decay of `Player::update` (src/lib.rs lines 660-663):
`v.x *= 0.2; if v.x < 2.0 && v.x > -2.0 { v.x = 0.0 }`. -/
def Player.decayVx (v : Rat) : Rat :=
  let v := v * (2 / 10)
  if v < 2 ∧ -2 < v then 0 else v

/-- The y-velocity decay of `Player::update` (src/lib.rs lines 661-665):
`v.y *= 0.7; if v.y < 2.0 && v.y > -2.0 { v.y = 0.0 }`. -/
def Player.decayVy (v : Rat) : Rat :=
  let v := v * (7 / 10)
  if v < 2 ∧ -2 < v then 0 else v

/-- The x-acceleration decay of `Player::update` (src/lib.rs lines 667-669):
`a.x *= 0.80; if a.x < 0.1 && a.x > -0.1 { a.x = 0.0 }`. -/
def Player.decayAx (a : Rat) : Rat :=
  let a := a * (8 / 10)
  if a < 1 / 10 ∧ -(1 / 10) < a then 0 else a

/-- `Player::update` from src/lib.rs lines 647-673: gravity reset,
position/velocity integration, per-axis velocity and acceleration decay
with cutoff snapping, then `MoveableEntity::update`. -/
def Player.update (p : Player) : Option Player :=
  let me := p.me
  let me := { me with a := { me.a with y := 98 / 10 } }
  let me := { me with en := { me.en with pos :=
      ⟨me.en.pos.x + truncQ me.v.x, me.en.pos.y + truncQ me.v.y⟩ } }
  let me := { me with v := ⟨me.v.x + me.a.x, me.v.y + me.a.y⟩ }
  let me := { me with v := ⟨Player.decayVx me.v.x, Player.decayVy me.v.y⟩ }
  let me := { me with a := { me.a with x := Player.decayAx me.a.x } }
  (me.update).map Player.mk

/-- `Camera` from src/lib.rs: position, viewport extent (`i64`), and the
dead-zone collision rect. -/
structure Camera where
  pos : Pt
  width : Int
  height : Int
  collision_rect : Rect
deriving DecidableEq, Repr

/-- `Game` from src/lib.rs (renderer-facing fields dropped). -/
structure Game where
  running : Bool
  debug : Bool
  current_map : Option GameMap
  camera : Camera
  player : Player
deriving DecidableEq

/-- `camera_left` of `Game::update_camera` (src/lib.rs line 353). -/
def Game.cameraLeft (g : Game) : Int :=
  g.camera.pos.x + g.camera.collision_rect.x

/-- `camera_right` of `Game::update_camera` (src/lib.rs line 354). -/
def Game.cameraRight (g : Game) : Int :=
  g.camera.pos.x + g.camera.collision_rect.x + (g.camera.collision_rect.w : Int)

/-- `camera_top` of `Game::update_camera` (src/lib.rs line 355). -/
def Game.cameraTop (g : Game) : Int :=
  g.camera.pos.y + g.camera.collision_rect.y

/-- `camera_bottom` of `Game::update_camera` (src/lib.rs line 356). -/
def Game.cameraBottom (g : Game) : Int :=
  g.camera.pos.y + g.camera.collision_rect.y + (g.camera.collision_rect.h : Int)

/-- `player_left` of `Game::update_camera` (src/lib.rs line 359). -/
def Game.playerLeft (g : Game) : Int :=
  g.player.me.en.pos.x + g.player.me.en.collision_rect.x

/-- `player_right` of `Game::update_camera` (src/lib.rs line 360). -/
def Game.playerRight (g : Game) : Int :=
  g.player.me.en.pos.x + g.player.me.en.collision_rect.x + (g.player.me.en.collision_rect.w : Int)

/-- `player_top` of `Game::update_camera` (src/lib.rs line 361). -/
def Game.playerTop (g : Game) : Int :=
  g.player.me.en.pos.y + g.player.me.en.collision_rect.y

/-- `player_bottom` of `Game::update_camera` (src/lib.rs line 362). -/
def Game.playerBottom (g : Game) : Int :=
  g.player.me.en.pos.y + g.player.me.en.collision_rect.y + (g.player.me.en.collision_rect.h : Int)

/-- The dead-zone follow step of `Game::update_camera` (src/lib.rs lines
367-377).  The x branches subtract both the dead-zone extent and its
`collision_rect.x` offset; the y branches subtract only the extent
(`player_bottom - height`) or assign `player_top` directly, omitting the
`collision_rect.y` offset. -/
def Game.cameraFollowPos (g : Game) : Pt :=
  let x :=
    if g.playerRight > g.cameraRight then
      g.playerRight - (g.camera.collision_rect.w : Int) - g.camera.collision_rect.x
    else if g.playerLeft < g.cameraLeft then
      g.playerLeft - g.camera.collision_rect.x
    else
      g.camera.pos.x
  let y :=
    if g.playerBottom > g.cameraBottom then
      g.playerBottom - (g.camera.collision_rect.h : Int)
    else if g.playerTop < g.cameraTop then
      g.playerTop
    else
      g.camera.pos.y
  ⟨x, y⟩

/-- The map clamp of `Game::update_camera` (src/lib.rs lines 379-390). -/
def Game.cameraClampPos (g : Game) (map : GameMap) (p : Pt) : Pt :=
  let x :=
    if p.x + g.camera.width > (map.pixel_width : Int) then
      (map.pixel_width : Int) - g.camera.width
    else if p.x < 0 then 0
    else p.x
  let y :=
    if p.y + g.camera.height > (map.pixel_height : Int) then
      (map.pixel_height : Int) - g.camera.height
    else if p.y < 0 then 0
    else p.y
  ⟨x, y⟩

/-- `Game::update_camera` (src/lib.rs lines 351-391): dead-zone follow, then
clamp into the active map.  `self.current_map.as_ref().unwrap()` panics when
no map is active, modelled by `none`. -/
def Game.update_camera (g : Game) : Option Game :=
  match g.current_map with
  | none => none
  | some map =>
      some { g with camera := { g.camera with pos := g.cameraClampPos map g.cameraFollowPos } }

/-! Concrete instances used to evaluate the definitions at the inputs named
by the specification's testable properties. -/

/-- The tileset of the spec's tile-resolution example: `tile_count = 100`
(side 10), `margin = 0`, `spacing = 0`, 16x16 tiles. -/
def T100 : Tileset :=
  { firstgid := 1
    texture_width := 160
    texture_height := 160
    tile_width := 16
    tile_height := 16
    tile_count := 100
    margin := 0
    spacing := 0 }

/-- Inflated byte stream of the spec's 2x2 round-trip example: four
little-endian 32-bit tile ids 1, 2, 0, 3. -/
def bytes2 : List Nat :=
  [1, 0, 0, 0, 2, 0, 0, 0, 0, 0, 0, 0, 3, 0, 0, 0]

/-- A Tiled map holding the 2x2 example layer. -/
def tm2 : TiledMap :=
  { layers := [{ data := some bytes2, width := 2, height := 2 }]
    width := 2
    height := 2
    tilewidth := 16
    tileheight := 16 }

/-- The empty 2x2 game map the example layer is inserted into. -/
def m2 : GameMap :=
  { width := 2, height := 2, tile_width := 16, tile_height := 16, tiles := [] }

/-- Animation table with cycle length 8 and frame count 4 for every
direction, cursors at their `Animation::new` initial values. -/
def A7 : Animation :=
  Animation.new (fun _ => 8) (fun _ => 4) (fun _ => ⟨0, 0⟩) (fun _ => 0) false

/-- A moveable entity with a live animation (assigned draw rect), facing
`Down` so that repeated updates keep the same direction row. -/
def E7 : MoveableEntity :=
  { en := { pos := ⟨0, 0⟩, collision_rect := ⟨10, 0, 32, 60⟩, draw_rect := some ⟨0, 0, 55, 65⟩ }
    dir := Direction.Down
    l_dir := Direction.Down
    v := ⟨0, 0⟩
    a := ⟨0, 0⟩
    anim := some A7 }

/-- `E7` with the animation cursors replaced by the given pair. -/
def c7ent (p : Nat × Nat) : MoveableEntity :=
  { E7 with anim := some { A7 with sc := p.1, ac := p.2 } }

/-- The orbit of `E7` under per-tick `MoveableEntity::update` calls. -/
def c7state : Nat → Option MoveableEntity
  | 0 => some E7
  | n + 1 => (c7state n).bind MoveableEntity.update

/-- An airborne entity: current direction `Up`, remembered direction
`Right`. -/
def E5 : MoveableEntity :=
  { en := { pos := ⟨250, 150⟩, collision_rect := ⟨10, 0, 32, 60⟩, draw_rect := some ⟨0, 0, 55, 65⟩ }
    dir := Direction.Up
    l_dir := Direction.Right
    v := ⟨0, -55⟩
    a := ⟨0, 98 / 10⟩
    anim := some A7 }

/-- A 1000x1000-pixel map (100x100 cells of 10x10 pixels). -/
def M3 : GameMap :=
  { width := 100, height := 100, tile_width := 10, tile_height := 10, tiles := [] }

/-- Game state with the 1000x1000 map active, a 200x200 viewport, and the
player at extreme coordinates (far negative x, far positive y). -/
def G3 : Game :=
  { running := true
    debug := false
    current_map := some M3
    camera := { pos := ⟨0, 0⟩, width := 200, height := 200, collision_rect := ⟨20, 20, 160, 100⟩ }
    player := ⟨{ en := { pos := ⟨-1000000000000, 1000000000000000⟩
                         collision_rect := ⟨10, 0, 32, 60⟩
                         draw_rect := none }
                 dir := Direction.Right
                 l_dir := Direction.Right
                 v := ⟨0, 0⟩
                 a := ⟨0, 0⟩
                 anim := none }⟩ }

/-- The result of `Game::update_camera` on `G3`: the camera lands on the
clamped corner `(0, 800)`. -/
def G3' : Game :=
  { G3 with camera := { G3.camera with pos := ⟨0, 800⟩ } }

/-- Game state whose player exceeds the dead-zone's bottom edge: dead zone
`Rect(100,100,780,500)` (the one built in src/main.rs), camera at the
origin, player bottom at 700 against the dead-zone bottom at 600. -/
def G4 : Game :=
  { running := true
    debug := false
    current_map := none
    camera := { pos := ⟨0, 0⟩, width := 980, height := 700, collision_rect := ⟨100, 100, 780, 500⟩ }
    player := ⟨{ en := { pos := ⟨200, 640⟩
                         collision_rect := ⟨10, 0, 32, 60⟩
                         draw_rect := none }
                 dir := Direction.Down
                 l_dir := Direction.Down
                 v := ⟨0, 0⟩
                 a := ⟨0, 0⟩
                 anim := none }⟩ }

/-- Game state whose player exceeds the dead-zone's right edge
(player right 942 against dead-zone right 880). -/
def G4w : Game :=
  { G4 with player := ⟨{ G4.player.me with en := { G4.player.me.en with pos := ⟨900, 300⟩ } }⟩ }

/-- Entity whose collision rect has a nonzero y offset (`y = 5`), about to
be clamped at the bottom of a 100x100 world. -/
def E9 : MoveableEntity :=
  { en := { pos := ⟨0, 50⟩, collision_rect := ⟨0, 5, 32, 60⟩, draw_rect := none }
    dir := Direction.Down
    l_dir := Direction.Down
    v := ⟨0, 0⟩
    a := ⟨0, 0⟩
    anim := none }

/-- An airborne entity out of bounds on the left and past the bottom of a
100x100 world. -/
def E9w : MoveableEntity :=
  { en := { pos := ⟨-50, 95⟩, collision_rect := ⟨10, 0, 32, 60⟩, draw_rect := none }
    dir := Direction.Up
    l_dir := Direction.Right
    v := ⟨0, 0⟩
    a := ⟨0, 0⟩
    anim := none }

/-! Theorems. -/

/-- `Nat.sqrt` is defined by well-founded recursion and does not reduce in
the kernel, so the concrete side length of `T100` is computed once here. -/
theorem T100_sqrt : Nat.sqrt T100.tile_count = 10 :=
  Nat.sqrt_eq 10

/-- C1: `tile_for_id(0)` is `None`, and for `id >= 1` (with grid side
`floor(sqrt(tile_count)) >= 1`) the resolved rect is
`Rect(margin + (index % side)*(tile_width+spacing),
      margin + (index / side)*(tile_height+spacing),
      tile_width, tile_height)` for `index = id - 1`. -/
theorem tile_for_id_grid_formula (ts : Tileset) (id : Nat)
    (_hside : 1 ≤ Nat.sqrt ts.tile_count) (hid : 1 ≤ id) :
    ts.tile_for_id 0 = none ∧
    ts.tile_for_id id = some
      ⟨((ts.margin + (id - 1) % Nat.sqrt ts.tile_count * (ts.tile_width + ts.spacing) : Nat) : Int),
       ((ts.margin + (id - 1) / Nat.sqrt ts.tile_count * (ts.tile_height + ts.spacing) : Nat) : Int),
       ts.tile_width, ts.tile_height⟩ := by
  have h0 : id ≠ 0 := by omega
  exact ⟨by simp [Tileset.tile_for_id],
    by simp [Tileset.tile_for_id, h0, Tileset.col_for_id, Tileset.row_for_id, Tileset.side_len]⟩

/-- C1 witness: the spec's concrete tileset (`tile_count = 100`, side 10,
no margin or spacing, 16x16 tiles) at ids 0, 1, 11, 12. -/
theorem tile_for_id_grid_formula_witness :
    T100.tile_for_id 0 = none ∧
    T100.tile_for_id 1 = some ⟨0, 0, 16, 16⟩ ∧
    T100.tile_for_id 11 = some ⟨0, 16, 16, 16⟩ ∧
    T100.tile_for_id 12 = some ⟨16, 16, 16, 16⟩ :=
  ⟨(tile_for_id_grid_formula T100 1 (by rw [T100_sqrt]; decide) (by decide)).1,
   ((tile_for_id_grid_formula T100 1 (by rw [T100_sqrt]; decide) (by decide)).2).trans
     (by rw [T100_sqrt]; decide),
   ((tile_for_id_grid_formula T100 11 (by rw [T100_sqrt]; decide) (by decide)).2).trans
     (by rw [T100_sqrt]; decide),
   ((tile_for_id_grid_formula T100 12 (by rw [T100_sqrt]; decide) (by decide)).2).trans
     (by rw [T100_sqrt]; decide)⟩

/-- C2 (code bug evidence): on the spec's 2x2 example layer, `Map::data`
returns the full inflated stream `[1,0,0,0, 2,0,0,0, 0,0,0,0, 3,0,0,0]`,
and `insert_data_using_tilset` consumes its first four bytes `1, 0, 0, 0`
consecutively (`data[i*width+j]`, stride 1) as the cell ids: cells (0,1)
and (1,1) come out empty, although the claimed per-cell ids `[1,2,0,3]`
would resolve them through tile ids 2 and 3 to non-empty rects. -/
theorem layer_bytes_consumed_consecutively :
    tm2.data 0 = Except.ok bytes2 ∧
    (m2.insert_data_using_tilset bytes2 T100).map
        (fun mm => mm.tiles.map (fun row => row.map Tile.clip_rect))
      = some [[T100.tile_for_id 1, T100.tile_for_id 0],
              [T100.tile_for_id 0, T100.tile_for_id 0]] ∧
    T100.tile_for_id 2 ≠ T100.tile_for_id 0 ∧
    T100.tile_for_id 3 ≠ T100.tile_for_id 0 :=
  ⟨rfl, rfl, by simp [Tileset.tile_for_id], by simp [Tileset.tile_for_id]⟩

/-- C5: while airborne (`Up` or `DoubleUp`), any direction change other
than `Landed` leaves the whole entity — direction, last direction, and
animation cursors included — unchanged. -/
theorem change_dir_airborne_ignored (me : MoveableEntity) (d : Direction)
    (hair : me.dir = Direction.Up ∨ me.dir = Direction.DoubleUp)
    (hd : d ≠ Direction.Landed) :
    me.change_dir d = me := by
  simp [MoveableEntity.change_dir, hd, hair]

/-- C5 witness: `change_dir(Left)` on an entity currently going `Up`. -/
theorem change_dir_airborne_ignored_witness :
    E5.change_dir Direction.Left = E5 :=
  change_dir_airborne_ignored E5 Direction.Left (Or.inl rfl) (by decide)

/-- C6: `change_dir(Landed)` always swaps in the remembered last direction
and stores `Landed` as the new last direction, leaving every other field
untouched; in particular, from current `Up` and last `Right` it yields
current `Right` and last `Landed`. -/
theorem change_dir_landed_swaps (me : MoveableEntity) :
    (me.change_dir Direction.Landed).dir = me.l_dir ∧
    (me.change_dir Direction.Landed).l_dir = Direction.Landed ∧
    (me.change_dir Direction.Landed).en = me.en ∧
    (me.change_dir Direction.Landed).v = me.v ∧
    (me.change_dir Direction.Landed).a = me.a ∧
    (me.change_dir Direction.Landed).anim = me.anim := by
  simp [MoveableEntity.change_dir]

/-- C3: whenever a map at least as large as the viewport is active,
`Game::update_camera` leaves the camera position inside
`[0, pixel_width - viewport_width] x [0, pixel_height - viewport_height]`,
for every player position whatsoever. -/
theorem update_camera_stays_in_map (g : Game) (m : GameMap) (g' : Game)
    (hm : g.current_map = some m)
    (hw : g.camera.width ≤ (m.pixel_width : Int))
    (hh : g.camera.height ≤ (m.pixel_height : Int))
    (hup : g.update_camera = some g') :
    0 ≤ g'.camera.pos.x ∧ g'.camera.pos.x ≤ (m.pixel_width : Int) - g.camera.width ∧
    0 ≤ g'.camera.pos.y ∧ g'.camera.pos.y ≤ (m.pixel_height : Int) - g.camera.height := by
  unfold Game.update_camera at hup
  rw [hm] at hup
  obtain rfl := (Option.some_inj.mp hup).symm
  unfold Game.cameraClampPos
  dsimp only
  split_ifs <;> constructor <;> try constructor
  all_goals omega

/-- C3 witness: the 1000x1000-pixel map with a 200x200 viewport and the
player at extreme coordinates; the camera lands at the clamped corner
`(0, 800)`, inside `[0,800] x [0,800]`. -/
theorem update_camera_stays_in_map_witness :
    0 ≤ G3'.camera.pos.x ∧ G3'.camera.pos.x ≤ (M3.pixel_width : Int) - G3.camera.width ∧
    0 ≤ G3'.camera.pos.y ∧ G3'.camera.pos.y ≤ (M3.pixel_height : Int) - G3.camera.height :=
  update_camera_stays_in_map G3 M3 G3' rfl (by decide) (by decide) (by decide)

/-- C4 counterexample: in the configuration built by src/main.rs (dead zone
`Rect(100,100,780,500)`), a player whose bottom edge (700) exceeds the
dead-zone bottom edge (600) moves the camera to `y = 200`, which puts the
dead-zone bottom edge at 800, not at the player's bottom edge — the claimed
exact edge placement fails on the bottom (and top) axis. -/
theorem camera_follow_bottom_edge_cex :
    G4.playerBottom > G4.cameraBottom ∧
    (G4.cameraFollowPos).y + G4.camera.collision_rect.y + (G4.camera.collision_rect.h : Int)
      ≠ G4.playerBottom := by
  exact ⟨by decide, by decide⟩

/-- C4 (amended): the left/right dead-zone overflows shift the camera by
exactly the overflow — the exceeded edge lands on the player's edge — but
the bottom/top branches omit the dead-zone rect's `y` offset: the camera's
`y` is set to `player_bottom - deadzone_height` (resp. `player_top`), so
the exceeded dead-zone edge ends up `collision_rect.y` past the player's
edge, matching it exactly only when that offset is zero. -/
theorem camera_follow_edge_placement (g : Game) :
    (g.playerRight > g.cameraRight →
      (g.cameraFollowPos).x + g.camera.collision_rect.x + (g.camera.collision_rect.w : Int)
        = g.playerRight) ∧
    (¬ g.playerRight > g.cameraRight → g.playerLeft < g.cameraLeft →
      (g.cameraFollowPos).x + g.camera.collision_rect.x = g.playerLeft) ∧
    (¬ g.playerRight > g.cameraRight → ¬ g.playerLeft < g.cameraLeft →
      (g.cameraFollowPos).x = g.camera.pos.x) ∧
    (g.playerBottom > g.cameraBottom →
      (g.cameraFollowPos).y = g.playerBottom - (g.camera.collision_rect.h : Int)) ∧
    (¬ g.playerBottom > g.cameraBottom → g.playerTop < g.cameraTop →
      (g.cameraFollowPos).y = g.playerTop) ∧
    (¬ g.playerBottom > g.cameraBottom → ¬ g.playerTop < g.cameraTop →
      (g.cameraFollowPos).y = g.camera.pos.y) := by
  unfold Game.cameraFollowPos
  dsimp only
  refine ⟨fun h1 => ?_, fun h1 h2 => ?_, fun h1 h2 => ?_,
          fun h3 => ?_, fun h3 h4 => ?_, fun h3 h4 => ?_⟩
  · rw [if_pos h1]; omega
  · rw [if_neg h1, if_pos h2]; omega
  · rw [if_neg h1, if_neg h2]
  · rw [if_pos h3]
  · rw [if_neg h3, if_pos h4]
  · rw [if_neg h3, if_neg h4]

/-- C4 witness for the amended statement: a player whose right edge (942)
exceeds the dead-zone right edge (880); the camera shifts so the dead-zone
right edge sits exactly on the player's right edge. -/
theorem camera_follow_edge_placement_witness :
    (G4w.cameraFollowPos).x + G4w.camera.collision_rect.x + (G4w.camera.collision_rect.w : Int)
      = G4w.playerRight :=
  (camera_follow_edge_placement G4w).1 (by decide)

/-- One update step on the cursor orbit of `E7`: checked for each of the 8
states of the periodic cycle. -/
theorem c7step_cycle : ∀ r < 8,
    MoveableEntity.update (c7ent (((r + 4) / 2) % 4, r + 1))
      = some (c7ent ((((r + 1) % 8 + 4) / 2) % 4, (r + 1) % 8 + 1)) := by
  decide

/-- The orbit of `E7` is the 8-periodic cursor cycle, entered at tick 1. -/
theorem c7state_eq (n : Nat) :
    c7state (n + 1) = some (c7ent (((n % 8 + 4) / 2) % 4, n % 8 + 1)) := by
  induction n with
  | zero => decide
  | succ n ih =>
      have h8 : n % 8 < 8 := Nat.mod_lt _ (by decide)
      have hstep := c7step_cycle (n % 8) h8
      have hmod : (n + 1) % 8 = (n % 8 + 1) % 8 := by omega
      calc c7state (n + 2) = (c7state (n + 1)).bind MoveableEntity.update := rfl
        _ = (some (c7ent (((n % 8 + 4) / 2) % 4, n % 8 + 1))).bind MoveableEntity.update := by
              rw [ih]
        _ = some (c7ent ((((n + 1) % 8 + 4) / 2) % 4, (n + 1) % 8 + 1)) := by
              rw [Option.some_bind, hstep, hmod]

/-- C7: starting from the `Animation::new` cursors (`sc = 1`, `ac = 0`) with
frame count 4 and cycle length 8, after `n+1` updates the tick cursor is
`n % 8 + 1` — it runs through 1..8 and resets to 1 after exceeding 8, never
returning to 0 — and the frame cursor is `((n % 8 + 4) / 2) % 4` — it
advances exactly once every 2 ticks and cycles 2, 3, 0, 1, wrapping back to
0 after 3. -/
theorem anim_cursor_trajectory (n : Nat) :
    (c7state (n + 1)).bind (fun me => me.anim.map (fun a => (a.sc, a.ac)))
      = some (((n % 8 + 4) / 2) % 4, n % 8 + 1) := by
  rw [c7state_eq n]
  rfl

/-- C8 counterexample: the source's cutoff is 2.0 (not 0.1) and its decay
factors are 0.2 / 0.7 (not 0.9), so a velocity component of 0.15 DOES snap
to exactly 0 on both axes, contradicting the claim that 0.15 does not
snap. -/
theorem decay_snap_at_015_cex :
    Player.decayVx (15 / 100) = 0 ∧ Player.decayVy (15 / 100) = 0 := by
  constructor <;> norm_num [Player.decayVx, Player.decayVy]

/-- C8 (amended): each velocity component is multiplied by its per-axis
decay factor (0.2 for x, 0.7 for y) and then set to exactly 0 if and only
if the product lies strictly within the cutoff band `(-2.0, 2.0)`;
otherwise the component keeps the product value.  With these constants a
component of 0.05 snaps to exactly 0 — and so does 0.15. -/
theorem velocity_decay_snap_iff (v : Rat) :
    (Player.decayVx v = 0 ↔ v * (2 / 10) < 2 ∧ -2 < v * (2 / 10)) ∧
    (¬(v * (2 / 10) < 2 ∧ -2 < v * (2 / 10)) → Player.decayVx v = v * (2 / 10)) ∧
    (Player.decayVy v = 0 ↔ v * (7 / 10) < 2 ∧ -2 < v * (7 / 10)) ∧
    (¬(v * (7 / 10) < 2 ∧ -2 < v * (7 / 10)) → Player.decayVy v = v * (7 / 10)) ∧
    Player.decayVx (5 / 100) = 0 ∧ Player.decayVy (5 / 100) = 0 := by
  refine ⟨?_, ?_, ?_, ?_, by norm_num [Player.decayVx], by norm_num [Player.decayVy]⟩
  · unfold Player.decayVx
    dsimp only
    split_ifs with h
    · simp [h]
    · constructor
      · intro h0
        rw [h0] at h
        exact absurd ⟨by norm_num, by norm_num⟩ h
      · intro hb
        exact absurd hb h
  · intro hb
    unfold Player.decayVx
    dsimp only
    rw [if_neg hb]
  · unfold Player.decayVy
    dsimp only
    split_ifs with h
    · simp [h]
    · constructor
      · intro h0
        rw [h0] at h
        exact absurd ⟨by norm_num, by norm_num⟩ h
      · intro hb
        exact absurd hb h
  · intro hb
    unfold Player.decayVy
    dsimp only
    rw [if_neg hb]

/-- C8 witness: a component of 20 is outside the band after decay
(20 * 0.2 = 4), so it keeps the decayed value 4 instead of snapping. -/
theorem velocity_decay_snap_iff_witness :
    Player.decayVx 20 = 4 :=
  ((velocity_decay_snap_iff 20).2.1 (by norm_num)).trans (by norm_num)

/-- C9 counterexample: for a collision rect with nonzero y offset
(`Rect(0,5,32,60)`), clamping at the bottom of a 100x100 world sets
`pos.y = 40`, leaving the collision rect's bottom at `5 + 40 + 60 = 105`,
outside `[0, 100]` — the claimed containment fails on the y axis. -/
theorem keep_on_screen_y_offset_cex :
    (E9.keep_on_screen 100 100).en.collision_rect.y + (E9.keep_on_screen 100 100).en.pos.y
      + ((E9.keep_on_screen 100 100).en.collision_rect.h : Int) > 100 := by
  decide

/-- C9 (amended): after `keep_on_screen(w, h)` the collision rect's
x-extent (offset plus position) lies within `[0, w]`, while on the y axis
it is the position itself that is clamped to `[0, h - rect.h]` — the rect's
y offset is ignored, so the rect's y-extent lies within `[0, h]` only when
that offset is zero; and when the clamp hits the bottom while the current
direction is `Up` or `DoubleUp`, `change_dir(Landed)` fires: the direction
becomes the remembered last direction and the last direction becomes
`Landed`. -/
theorem keep_on_screen_clamped (me : MoveableEntity) (w h : Nat)
    (hw : me.en.collision_rect.w ≤ w) (hh : me.en.collision_rect.h ≤ h) :
    (0 ≤ (me.keep_on_screen w h).en.collision_rect.x + (me.keep_on_screen w h).en.pos.x ∧
     (me.keep_on_screen w h).en.collision_rect.x + (me.keep_on_screen w h).en.pos.x
       + ((me.keep_on_screen w h).en.collision_rect.w : Int) ≤ (w : Int)) ∧
    (0 ≤ (me.keep_on_screen w h).en.pos.y ∧
     (me.keep_on_screen w h).en.pos.y + ((me.keep_on_screen w h).en.collision_rect.h : Int)
       ≤ (h : Int)) ∧
    (0 ≤ me.en.pos.y → (h : Int) < me.en.pos.y + (me.en.collision_rect.h : Int) →
      (me.dir = Direction.Up ∨ me.dir = Direction.DoubleUp) →
      (me.keep_on_screen w h).dir = me.l_dir ∧
      (me.keep_on_screen w h).l_dir = Direction.Landed) := by
  obtain ⟨⟨⟨px, py⟩, ⟨rcx, rcy, rcw, rch⟩, dr⟩, dir, ldir, vv, aa, an⟩ := me
  dsimp only at hw hh
  unfold MoveableEntity.keep_on_screen
  cases dir <;> dsimp only <;> split_ifs <;> dsimp only at * <;>
    refine ⟨⟨?_, ?_⟩, ⟨?_, ?_⟩, fun hy1 hy2 hdir => ?_⟩ <;>
      first
        | omega
        | (exfalso; omega)
        | (simp [MoveableEntity.change_dir] <;> omega)
        | (simp at hdir)

/-- C9 witness: an airborne (`Up`) entity past the left and bottom bounds
of a 100x100 world is clamped back inside on both axes and lands:
direction becomes the remembered `l_dir`, last direction becomes
`Landed`. -/
theorem keep_on_screen_clamped_witness :
    (0 ≤ (E9w.keep_on_screen 100 100).en.collision_rect.x
           + (E9w.keep_on_screen 100 100).en.pos.x ∧
     (E9w.keep_on_screen 100 100).en.collision_rect.x + (E9w.keep_on_screen 100 100).en.pos.x
       + ((E9w.keep_on_screen 100 100).en.collision_rect.w : Int) ≤ (100 : Int)) ∧
    (0 ≤ (E9w.keep_on_screen 100 100).en.pos.y ∧
     (E9w.keep_on_screen 100 100).en.pos.y
       + ((E9w.keep_on_screen 100 100).en.collision_rect.h : Int) ≤ (100 : Int)) ∧
    ((E9w.keep_on_screen 100 100).dir = E9w.l_dir ∧
     (E9w.keep_on_screen 100 100).l_dir = Direction.Landed) :=
  have h := keep_on_screen_clamped E9w 100 100 (by decide) (by decide)
  ⟨h.1, h.2.1, h.2.2 (by decide) (by decide) (Or.inl rfl)⟩

/-- C10: with a live animation whose current-direction table entries
satisfy `1 <= frame_count <= cycle_length` (current direction taken after
the still-facing fixup that opens `MoveableEntity::update`), both divisors
of the animation advance — `frame_count` and
`change_every = cycle_length / frame_count` — are nonzero, so the update
never divides or takes a modulus by zero: it always returns a state
instead of hitting the modelled panic. -/
theorem anim_advance_no_panic (me : MoveableEntity) (a : Animation)
    (hanim : me.stillStep.anim = some a)
    (h1 : 1 ≤ a.dir_to_frames me.stillStep.dir)
    (h2 : a.dir_to_frames me.stillStep.dir ≤ a.dir_to_anim_len me.stillStep.dir) :
    (me.update).isSome := by
  unfold MoveableEntity.update MoveableEntity.animAdvance
  by_cases hdr : me.stillStep.en.draw_rect = none
  · rw [if_pos hdr]
    rfl
  · rw [if_neg hdr, hanim]
    have hf : ¬ a.dir_to_frames me.stillStep.dir = 0 := by omega
    have hce : ¬ a.dir_to_anim_len me.stillStep.dir / a.dir_to_frames me.stillStep.dir = 0 := by
      have := Nat.div_pos h2 (by omega)
      omega
    dsimp only
    rw [if_neg hf, if_neg hce]
    rfl

/-- C10 witness: the live-animation entity `E7` (frame count 4, cycle
length 8) updates without hitting the division-by-zero panic. -/
theorem anim_advance_no_panic_witness : (E7.update).isSome :=
  anim_advance_no_panic E7 A7 (by decide) (by decide) (by decide)
